import Mathlib

set_option autoImplicit false

/-!
Shallow embedding of the GRANDPA runtime module (`src/srml/grandpa/src/lib.rs`):
the authority-set state machine, the challenge/equivocation accountability
entry points and the per-block finalization hook.  Block numbers, hashes,
authority identities, proofs and signatures are all modelled as `Nat`; the
external key-ownership checker and the raw signature primitive are passed in
as function parameters (they are capability-typed externals in the source).
-/

/-- Lifecycle state of the authority set, from `StoredState<N>` in the source. -/
inductive StoredState where
  | Live : StoredState
  | PendingPause (scheduled_at : Nat) (delay : Nat) : StoredState
  | Paused : StoredState
  | PendingResume (scheduled_at : Nat) (delay : Nat) : StoredState
deriving DecidableEq, Repr

/-- A stored pending authority-set change, from `StoredPendingChange<N>`. -/
structure StoredPendingChange where
  scheduled_at : Nat
  delay : Nat
  next_authorities : List (Nat × Nat)
  forced : Option Nat
deriving DecidableEq, Repr

/-- A header of the ancestry chains carried by a challenge: hash, parent hash
and block number. -/
structure ModelHeader where
  hash : Nat
  parent_hash : Nat
  number : Nat
deriving DecidableEq, Repr

/-- A single challenged vote (`safety::ChallengedVote`): the vote's target
block, the claimed signature and the claimed authority. -/
structure ChallengedVote where
  target_hash : Nat
  target_number : Nat
  signature : Nat
  authority : Nat
deriving DecidableEq, Repr

/-- A set of votes with its round and supporting headers, as used for both
`challenge.rejecting_set` and `challenge.finalized_block_proof`. -/
structure RejectingVoteSet where
  round : Nat
  votes : List ChallengedVote
  headers : List ModelHeader
deriving DecidableEq, Repr

/-- A challenge (`safety::Challenge`), with exactly the fields the module
reads: the rejecting vote set, the finalized-block proof, the claimed
finalized block, an optional reference to a prior challenge, the target
authorities and their optional inclusion proofs. -/
structure Challenge where
  rejecting_set : RejectingVoteSet
  finalized_block_proof : RejectingVoteSet
  finalized_block : Nat × Nat
  previous_challenge : Option Nat
  targets : List Nat
  targets_proof : Option (List Nat)
deriving DecidableEq, Repr

/-- A pending challenge wrapper, from `safety::StoredPendingChallenge`. -/
structure StoredPendingChallenge where
  challenge : Challenge
deriving DecidableEq, Repr

/-- An open challenge session, from `safety::StoredChallengeSession` with the
fields the module constructs at promotion time. -/
structure StoredChallengeSession where
  rejecting_set_round : Nat
  challenge_hash : Nat
  reference_block : Nat × Nat
  parent_hash : Nat
  scheduled_at : Nat
  delay : Nat
deriving DecidableEq, Repr

/-- One consensus-log entry (`ConsensusLog`), as deposited by the module. -/
inductive ConsensusLog where
  | ScheduledChange (delay : Nat) (next_authorities : List (Nat × Nat)) : ConsensusLog
  | ForcedChange (median : Nat) (delay : Nat) (next_authorities : List (Nat × Nat)) : ConsensusLog
  | Pause (delay : Nat) : ConsensusLog
  | Resume (delay : Nat) : ConsensusLog
  | Challenges (challenges : List Challenge) : ConsensusLog
  | OnDisabled (i : Nat) : ConsensusLog
deriving DecidableEq, Repr

/-- The module's storage (`decl_storage!` block): authorities, lifecycle
state, the optional pending change, the historical and open challenge
sessions, the pending-challenge queue, the forced-change throttle and the
stall marker. -/
structure GrandpaState where
  authorities : List (Nat × Nat)
  state : StoredState
  pending_change : Option StoredPendingChange
  historical_challenge_sessions : List Nat
  challenge_sessions : List (Nat × StoredChallengeSession)
  pending_challenges : List StoredPendingChallenge
  next_forced : Option Nat
  stalled : Option (Nat × Nat)
deriving DecidableEq, Repr

/-- The all-empty starting storage (authorities set by genesis config). -/
def init_state : GrandpaState :=
  { authorities := []
    state := .Live
    pending_change := none
    historical_challenge_sessions := []
    challenge_sessions := []
    pending_challenges := []
    next_forced := none
    stalled := none }

/-- `Module::schedule_pause`: succeeds only from `Live`, installing
`PendingPause { scheduled_at := current height, delay := in_blocks }`. -/
def schedule_pause (in_blocks : Nat) (current_height : Nat) (s : GrandpaState) :
    Except String GrandpaState :=
  match s.state with
  | .Live => .ok { s with state := .PendingPause current_height in_blocks }
  | _ => .error "Attempt to signal GRANDPA pause when the authority set is not live"

/-- `Module::schedule_resume`: succeeds only from `Paused`, installing
`PendingResume { scheduled_at := current height, delay := in_blocks }`. -/
def schedule_resume (in_blocks : Nat) (current_height : Nat) (s : GrandpaState) :
    Except String GrandpaState :=
  match s.state with
  | .Paused => .ok { s with state := .PendingResume current_height in_blocks }
  | _ => .error "Attempt to signal GRANDPA resume when the authority set is not paused"

/-- `Module::schedule_change`: fails while a change is pending; a forced
change additionally fails while `NextForced` is strictly in the future and on
success sets `NextForced` to `scheduled_at + in_blocks * 2`. -/
def schedule_change (next_authorities : List (Nat × Nat)) (in_blocks : Nat)
    (forced : Option Nat) (current_height : Nat) (s : GrandpaState) :
    Except String GrandpaState :=
  if s.pending_change = none then
    let scheduled_at := current_height
    match forced with
    | some _ =>
      let throttled : Bool :=
        match s.next_forced with
        | some next => next > scheduled_at
        | none => false
      if throttled then
        .error "Cannot signal forced change so soon after last."
      else
        .ok { s with
          next_forced := some (scheduled_at + in_blocks * 2)
          pending_change := some
            { scheduled_at := scheduled_at, delay := in_blocks
              next_authorities := next_authorities, forced := forced } }
    | none =>
      .ok { s with
        pending_change := some
          { scheduled_at := scheduled_at, delay := in_blocks
            next_authorities := next_authorities, forced := forced } }
  else
    .error "Attempt to signal GRANDPA change with one already pending."

/-- `OneSessionHandler::on_new_session`: on a changed session whose mapped
authorities differ from the current set, consume the `Stalled` marker (if
any) into a forced change, else schedule an instant zero-delay change; the
inner `schedule_change` result is discarded (`let _ = ...`). -/
def on_new_session (changed : Bool) (validators : List (Nat × Nat))
    (current_height : Nat) (s : GrandpaState) : GrandpaState :=
  if changed then
    let next_authorities := validators.map (fun v => (v.2, 1))
    if next_authorities ≠ s.authorities then
      match s.stalled with
      | some (further_wait, median) =>
        let s1 := { s with stalled := none }
        match schedule_change next_authorities further_wait (some median) current_height s1 with
        | .ok s2 => s2
        | .error _ => s1
      | none =>
        match schedule_change next_authorities 0 none current_height s with
        | .ok s2 => s2
        | .error _ => s
    else s
  else s

/-- `OnFinalizationStalled::on_stalled`: records the stall marker. -/
def on_stalled (further_wait : Nat) (median : Nat) (s : GrandpaState) : GrandpaState :=
  { s with stalled := some (further_wait, median) }

/-- Find the header with the given hash in the ancestry. -/
def lookup_header (headers : List ModelHeader) (h : Nat) : Option ModelHeader :=
  headers.find? (fun hd => hd.hash == h)

/-- Fuel-bounded walk along parent links: does block `x` descend from (or
equal) block `anc` within the given ancestry headers? -/
def descends_or_equal (headers : List ModelHeader) : Nat → Nat → Nat → Bool
  | 0, x, anc => x == anc
  | fuel + 1, x, anc =>
    x == anc ||
      (match lookup_header headers x with
       | some hd => descends_or_equal headers fuel hd.parent_hash anc
       | none => false)

/-- Weight a voter set assigns to an authority (0 if absent). -/
def voter_weight (voters : List (Nat × Nat)) (a : Nat) : Nat :=
  match voters.find? (fun v => v.1 == a) with
  | some v => v.2
  | none => 0

/-- Total weight of a voter set. -/
def total_weight (voters : List (Nat × Nat)) : Nat :=
  (voters.map Prod.snd).sum

/-- Accumulated weight, over the given votes, of those whose target descends
from (or equals) candidate block `c`. -/
def candidate_weight (headers : List ModelHeader) (votes : List ChallengedVote)
    (voters : List (Nat × Nat)) (c : Nat) : Nat :=
  ((votes.filter (fun v => descends_or_equal headers headers.length v.target_hash c)).map
    (fun v => voter_weight voters v.authority)).sum

/-- Does the list contain a repeated element? -/
def has_dup : List Nat → Bool
  | [] => false
  | x :: xs => xs.contains x || has_dup xs

/-- Deepest candidate by block number; on equal height the earlier candidate
is kept (a strictly greater height is preferred). -/
def best_candidate : List (Nat × Nat) → Option (Nat × Nat)
  | [] => none
  | c :: rest =>
    match best_candidate rest with
    | none => some c
    | some b => if b.2 > c.2 then some b else some c

/-- Modelled from the spec: the Vote-Set Justification Verifier
(`fg_primitives::validate_commit`, not under `src/`).  Per the spec: a
duplicate voter or a vote target disconnected from the claimed block is a
descriptive failure; otherwise, for each candidate block (the claimed block
and every header), the total weight of votes descending from it is
accumulated, and the ghost is the deepest candidate whose weight exceeds
two-thirds of the total voter weight (ties broken by strictly greater
height); an absent supermajority is reported as a no-ghost verdict, not an
error. -/
def validate_commit (target : Nat × Nat) (votes : List ChallengedVote)
    (voters : List (Nat × Nat)) (headers : List ModelHeader) :
    Except String (Option (Nat × Nat)) :=
  if has_dup (votes.map (fun v => v.authority)) then
    .error "DuplicateVoter"
  else if votes.any (fun v => !(descends_or_equal headers headers.length v.target_hash target.1)) then
    .error "DisconnectedAncestry"
  else
    let total := total_weight voters
    let candidates := target :: headers.map (fun h => (h.hash, h.number))
    let good := candidates.filter
      (fun c => 3 * candidate_weight headers votes voters c.1 > 2 * total)
    .ok (best_candidate good)

/-- One of the two votes of an equivocation: the payload fields the verifier
reconstructs (round, set id, vote kind, content) plus the claimed signature. -/
structure EquivocationVote where
  round : Nat
  set_id : Nat
  is_precommit : Bool
  content : Nat
  signature : Nat
deriving DecidableEq, Repr

/-- An equivocation report (`GrandpaEquivocation`): the claimed identity, its
optional key-ownership inclusion proof, and the two conflicting votes. -/
structure Equivocation where
  identity : Nat
  identity_proof : Option Nat
  first : EquivocationVote
  second : EquivocationVote
deriving DecidableEq, Repr

/-- Modelled from the spec: the Equivocation Verifier
(`GrandpaEquivocation::is_valid`, not under `src/`).  A round mismatch
between the two embedded rounds is rejected before signature checking; the
report is valid only if both signatures verify against the claimed identity
and the two vote contents differ.  `sig_ok` is the external raw
signature-verification primitive. -/
def Equivocation.is_valid (sig_ok : Nat → EquivocationVote → Bool)
    (e : Equivocation) : Bool :=
  if e.first.round != e.second.round then
    false
  else
    sig_ok e.identity e.first && sig_ok e.identity e.second &&
      e.first.content != e.second.content

/-- `Module::report_equivocation`: fails on a missing inclusion proof, then
on a failing key-ownership check; the validity check then only guards the
slash signal (a stub in the source), mutating nothing either way.
`check_proof` is the external `KeyOwnerSystem::check_proof` capability. -/
def report_equivocation (check_proof : Nat → Nat → Option Nat)
    (sig_ok : Nat → EquivocationVote → Bool) (e : Equivocation)
    (s : GrandpaState) : Except String GrandpaState :=
  match e.identity_proof with
  | none => .error "Equivocation does not have inclusion proof"
  | some proof =>
    match check_proof e.identity proof with
    | none => .error "Bad session key proof"
    | some _ =>
      if e.is_valid sig_ok then
        .ok s
      else
        .ok s

/-- The proof-checking loop of `report_rejecting_set`: each inclusion proof
is checked against the target authority at the same index, failing on the
first bad proof, and accumulating the punishable identities. -/
def check_targets_loop (check_proof : Nat → Nat → Option Nat) (targets : List Nat) :
    List Nat → Nat → Except String (List Nat)
  | [], _ => .ok []
  | p :: rest, idx =>
    match check_proof (targets.getD idx 0) p with
    | none => .error "Bad session key proof"
    | some t =>
      match check_targets_loop check_proof targets rest (idx + 1) with
      | .error e => .error e
      | .ok l => .ok (t :: l)

/-- One supermajority check of the equal-round branch: rebuild the commit for
the claimed finalized block from the given votes and headers and fail when
the verifier computes a ghost different from the claimed block; a verifier
error or an absent ghost is silently ignored (`if let` chain in the source). -/
def check_supermajority (target : Nat × Nat) (votes : List ChallengedVote)
    (voters : List (Nat × Nat)) (headers : List ModelHeader) :
    Except String Unit :=
  match validate_commit target votes voters headers with
  | .ok (some ghost) =>
    if ghost = target then .ok () else .error "Invalid proof of finalized block"
  | _ => .ok ()

/-- The two re-derivations of the `round_s == round_b` branch: first over the
finalized-block proof's votes and headers, then over the rejecting set's,
both against the claimed finalized block and the current authorities. -/
def equal_round_checks (ch : Challenge) (voters : List (Nat × Nat)) :
    Except String Unit :=
  match check_supermajority ch.finalized_block ch.finalized_block_proof.votes
      voters ch.finalized_block_proof.headers with
  | .error e => .error e
  | .ok _ =>
    check_supermajority ch.finalized_block ch.rejecting_set.votes
      voters ch.rejecting_set.headers

/-- Look up an open challenge session by hash. -/
def lookup_session (m : List (Nat × StoredChallengeSession)) (h : Nat) :
    Option StoredChallengeSession :=
  (m.find? (fun kv => kv.1 == h)).map (fun kv => kv.2)

/-- Remove an open challenge session by hash (no-op when absent). -/
def remove_session (s : GrandpaState) (h : Nat) : GrandpaState :=
  { s with challenge_sessions := s.challenge_sessions.filter (fun kv => kv.1 != h) }

/-- Append a challenge to the pending-challenge queue. -/
def queue_pending (ch : Challenge) (s : GrandpaState) : GrandpaState :=
  { s with pending_challenges := s.pending_challenges ++ [{ challenge := ch }] }

/-- The `round_s > round_b` branch of `report_rejecting_set`: when a previous
challenge is referenced and its session exists with a stored round at least
`round_s`, fail; otherwise remove the referenced session (a no-op when
absent or unreferenced) and queue the challenge as pending. -/
def rebuttal_branch (ch : Challenge) (s : GrandpaState) : Except String GrandpaState :=
  match ch.previous_challenge with
  | some challenge_hash =>
    match lookup_session s.challenge_sessions challenge_hash with
    | some challenge_session =>
      if challenge_session.rejecting_set_round ≥ ch.rejecting_set.round then
        .error "Answer to challenge must have lower round"
      else
        .ok (queue_pending ch (remove_session s challenge_hash))
    | none => .ok (queue_pending ch (remove_session s challenge_hash))
  | none => .ok (queue_pending ch s)

/-- `Module::report_rejecting_set`: require the inclusion proofs and check
them all; then run the equal-round re-derivations when `round_s == round_b`,
and the rebuttal branch when `round_s > round_b`; any other rounds fall
through to success with the state untouched. -/
def report_rejecting_set (check_proof : Nat → Nat → Option Nat) (ch : Challenge)
    (s : GrandpaState) : Except String GrandpaState :=
  match ch.targets_proof with
  | none => .error "Challenge does not have proof of inclusion"
  | some proofs =>
    match check_targets_loop check_proof ch.targets proofs 0 with
    | .error e => .error e
    | .ok _to_punish =>
      let round_s := ch.rejecting_set.round
      let round_b := ch.finalized_block_proof.round
      let eq_checks : Except String Unit :=
        if round_s = round_b then equal_round_checks ch s.authorities else .ok ()
      match eq_checks with
      | .error e => .error e
      | .ok _ =>
        if round_s > round_b then
          rebuttal_branch ch s
        else
          .ok s

/-- Fixed challenge-session length (`CHALLENGE_SESSION_LENGTH` lives in
`fg_primitives`, not under `src/`; modelled from the spec, whose expiry
scenario uses a session length of 50 blocks). -/
def CHALLENGE_SESSION_LENGTH : Nat := 50

/-- The log entry announcing a pending change: a `ForcedChange` carrying the
median when the change was forced, a `ScheduledChange` otherwise. -/
def announce_log (pc : StoredPendingChange) : ConsensusLog :=
  match pc.forced with
  | some median => .ForcedChange median pc.delay pc.next_authorities
  | none => .ScheduledChange pc.delay pc.next_authorities

/-- First step of `on_finalize`: when a change is pending, announce it in the
log at its `scheduled_at` block, and enact it (replace the authorities and
clear the pending change) at `scheduled_at + delay`. -/
def step_pending_change (block_number : Nat) (s : GrandpaState) :
    GrandpaState × List ConsensusLog :=
  match s.pending_change with
  | none => (s, [])
  | some pc =>
    let logs := if block_number = pc.scheduled_at then [announce_log pc] else []
    if block_number = pc.scheduled_at + pc.delay then
      ({ s with authorities := pc.next_authorities, pending_change := none }, logs)
    else
      (s, logs)

/-- Second step of `on_finalize`: remove every open challenge session whose
`scheduled_at + delay` equals the current block (the slash is a stub in the
source, and nothing is written to `HistoricalChallengeSessions`). -/
def step_expire_sessions (block_number : Nat) (s : GrandpaState) : GrandpaState :=
  { s with challenge_sessions :=
      s.challenge_sessions.filter (fun kv => block_number != kv.2.scheduled_at + kv.2.delay) }

/-- Insert into the session map, overwriting the value of an existing key. -/
def session_insert (m : List (Nat × StoredChallengeSession)) (k : Nat)
    (v : StoredChallengeSession) : List (Nat × StoredChallengeSession) :=
  if m.any (fun kv => kv.1 == k) then
    m.map (fun kv => if kv.1 == k then (k, v) else kv)
  else
    m ++ [(k, v)]

/-- The challenge session built when a pending challenge is promoted, keyed
by the challenge's claimed finalized-block hash. -/
def make_session (block_number : Nat) (parent_hash : Nat)
    (pc : StoredPendingChallenge) : StoredChallengeSession :=
  { rejecting_set_round := pc.challenge.rejecting_set.round
    challenge_hash := pc.challenge.finalized_block.1
    reference_block := pc.challenge.finalized_block
    parent_hash := parent_hash
    scheduled_at := block_number
    delay := CHALLENGE_SESSION_LENGTH }

/-- Third step of `on_finalize`: when pending challenges exist, deposit one
`Challenges` log carrying them all, store a session for each and clear the
queue. -/
def step_promote (block_number : Nat) (parent_hash : Nat) (s : GrandpaState) :
    GrandpaState × List ConsensusLog :=
  if s.pending_challenges.length > 0 then
    let logs := [ConsensusLog.Challenges (s.pending_challenges.map (fun p => p.challenge))]
    let sessions := s.pending_challenges.foldl
      (fun m p => session_insert m p.challenge.finalized_block.1
        (make_session block_number parent_hash p))
      s.challenge_sessions
    ({ s with challenge_sessions := sessions, pending_challenges := [] }, logs)
  else
    (s, [])

/-- Fourth step of `on_finalize`: announce a pending pause/resume at its
`scheduled_at` block and commit the terminal state at `scheduled_at + delay`. -/
def step_lifecycle (block_number : Nat) (s : GrandpaState) :
    GrandpaState × List ConsensusLog :=
  match s.state with
  | .PendingPause scheduled_at delay =>
    let logs := if block_number = scheduled_at then [ConsensusLog.Pause delay] else []
    if block_number = scheduled_at + delay then
      ({ s with state := .Paused }, logs)
    else
      (s, logs)
  | .PendingResume scheduled_at delay =>
    let logs := if block_number = scheduled_at then [ConsensusLog.Resume delay] else []
    if block_number = scheduled_at + delay then
      ({ s with state := .Live }, logs)
    else
      (s, logs)
  | _ => (s, [])

/-- `Module::on_finalize`, in the source's order: advance the pending change,
expire due challenge sessions, promote pending challenges, then advance the
pause/resume lifecycle; logs are deposited in the same order. -/
def on_finalize (block_number : Nat) (parent_hash : Nat) (s : GrandpaState) :
    GrandpaState × List ConsensusLog :=
  let r1 := step_pending_change block_number s
  let s2 := step_expire_sessions block_number r1.1
  let r3 := step_promote block_number parent_hash s2
  let r4 := step_lifecycle block_number r3.1
  (r4.1, r1.2 ++ r3.2 ++ r4.2)

/-- Is a log entry an authority-change announcement (scheduled or forced)? -/
def is_change_log : ConsensusLog → Bool
  | .ScheduledChange _ _ => true
  | .ForcedChange _ _ _ => true
  | _ => false

/-- One step of the cyclic lifecycle order
Live → PendingPause → Paused → PendingResume → Live (or staying put). -/
def cyclic_step (a b : StoredState) : Prop :=
  a = b ∨
  (a = .Live ∧ ∃ sa d, b = .PendingPause sa d) ∨
  (∃ sa d, a = .PendingPause sa d ∧ b = .Paused) ∨
  (a = .Paused ∧ ∃ sa d, b = .PendingResume sa d) ∨
  (∃ sa d, a = .PendingResume sa d ∧ b = .Live)

/-- A challenge whose rejecting-set round 1 is strictly below its
finalized-block proof's round 2, with trivially passing inclusion proofs. -/
def c1_challenge : Challenge :=
  { rejecting_set := { round := 1, votes := [], headers := [] }
    finalized_block_proof := { round := 2, votes := [], headers := [] }
    finalized_block := (0, 0)
    previous_challenge := none
    targets := []
    targets_proof := some [] }

/-- An open session over block hash 7 scheduled at height 100 with delay 50. -/
def c2_session : StoredChallengeSession :=
  { rejecting_set_round := 3, challenge_hash := 7, reference_block := (7, 9)
    parent_hash := 1, scheduled_at := 100, delay := 50 }

/-- A state holding exactly the session of `c2_session`. -/
def c2_state : GrandpaState :=
  { init_state with challenge_sessions := [(7, c2_session)] }

/-- A rebuttal challenge over the same block hash 7 as `c2_session`. -/
def c2_challenge : Challenge :=
  { rejecting_set := { round := 3, votes := [], headers := [] }
    finalized_block_proof := { round := 2, votes := [], headers := [] }
    finalized_block := (7, 9)
    previous_challenge := none
    targets := []
    targets_proof := some [] }

/-- The state after `c2_challenge` is accepted on the expired state: session
gone, challenge queued, history still empty. -/
def c2_requeued : GrandpaState :=
  { init_state with pending_challenges := [{ challenge := c2_challenge }] }

/-- A rebuttal (round 5 over round 1) referencing the absent session hash 99. -/
def c3_challenge : Challenge :=
  { rejecting_set := { round := 5, votes := [], headers := [] }
    finalized_block_proof := { round := 1, votes := [], headers := [] }
    finalized_block := (7, 9)
    previous_challenge := some 99
    targets := []
    targets_proof := some [] }

/-- A rebuttal (round 5 over round 1) referencing session hash 4. -/
def c3w_challenge : Challenge :=
  { rejecting_set := { round := 5, votes := [], headers := [] }
    finalized_block_proof := { round := 1, votes := [], headers := [] }
    finalized_block := (8, 3)
    previous_challenge := some 4
    targets := []
    targets_proof := some [] }

/-- A state with an open session of stored round 2 under hash 4. -/
def c3w_state : GrandpaState :=
  { init_state with challenge_sessions :=
      [(4, { rejecting_set_round := 2, challenge_hash := 4, reference_block := (4, 2)
             parent_hash := 0, scheduled_at := 10, delay := 50 })] }

/-- An equivocation whose two votes are identical in content (a harmless
duplicate, not a conflict), with an inclusion proof present. -/
def c4_equivocation : Equivocation :=
  { identity := 1
    identity_proof := some 5
    first := { round := 3, set_id := 0, is_precommit := true, content := 4, signature := 0 }
    second := { round := 3, set_id := 0, is_precommit := true, content := 4, signature := 0 } }

/-- A state whose forced-change throttle is set to height 10. -/
def c5_throttled_state : GrandpaState :=
  { init_state with next_forced := some 10 }

/-- The state produced by a successful forced change at height 19, delay 4,
median 8: throttle moves to 19 + 4 * 2 = 27. -/
def c5_after_state : GrandpaState :=
  { init_state with
      next_forced := some 27
      pending_change := some
        { scheduled_at := 19, delay := 4, next_authorities := [], forced := some 8 } }

/-- A state with no pending change but a forced-change throttle at height 10. -/
def c6_throttled_state : GrandpaState :=
  { init_state with next_forced := some 10 }

/-- A state with a pending change already installed. -/
def c6_pending_state : GrandpaState :=
  { init_state with
      pending_change := some
        { scheduled_at := 0, delay := 0, next_authorities := [], forced := none } }

/-- The scenario-1 state: four unit-weight authorities and an instant change
to the first three scheduled at height 5 with delay 0. -/
def c9_state : GrandpaState :=
  { init_state with
      authorities := [(1, 1), (2, 1), (3, 1), (4, 1)]
      pending_change := some
        { scheduled_at := 5, delay := 0
          next_authorities := [(1, 1), (2, 1), (3, 1)], forced := none } }

/-- A state pending a pause scheduled at height 5 with delay 3. -/
def c7_pending_state : GrandpaState :=
  { init_state with state := .PendingPause 5 3 }

/-- The header of block 2, a child of the claimed finalized block 1. -/
def c8_header : ModelHeader := { hash := 2, parent_hash := 1, number := 2 }

/-- A challenged vote by the given authority for block 2 at height 2. -/
def c8_vote (a : Nat) : ChallengedVote :=
  { target_hash := 2, target_number := 2, signature := 0, authority := a }

/-- A challenge with `round_s = round_b = 5` whose finalized-block proof's
votes all point to block 2, so the computed ghost (2, 2) differs from the
claimed finalized block (1, 1). -/
def c8_challenge : Challenge :=
  { rejecting_set := { round := 5, votes := [c8_vote 10, c8_vote 11, c8_vote 12], headers := [c8_header] }
    finalized_block_proof := { round := 5, votes := [c8_vote 10, c8_vote 11, c8_vote 12], headers := [c8_header] }
    finalized_block := (1, 1)
    previous_challenge := none
    targets := []
    targets_proof := some [] }

/-- A state whose authorities are the three unit-weight voters 10, 11, 12. -/
def c8_state : GrandpaState :=
  { init_state with authorities := [(10, 1), (11, 1), (12, 1)] }

/-- A state that is simultaneously stalled and holding a pending change. -/
def c10_state : GrandpaState :=
  { init_state with
      authorities := [(1, 1)]
      stalled := some (3, 9)
      pending_change := some
        { scheduled_at := 0, delay := 0, next_authorities := [], forced := none } }

theorem step_pending_change_some (bn : Nat) (s : GrandpaState) (pc : StoredPendingChange)
    (h : s.pending_change = some pc) :
    step_pending_change bn s =
      (if bn = pc.scheduled_at + pc.delay then
        { s with authorities := pc.next_authorities, pending_change := none }
      else s,
      if bn = pc.scheduled_at then [announce_log pc] else []) := by
  unfold step_pending_change
  rw [h]
  dsimp only
  split <;> rfl

theorem step_pending_change_state (bn : Nat) (s : GrandpaState) :
    ((step_pending_change bn s).1).state = s.state := by
  unfold step_pending_change
  split
  · rfl
  · dsimp only
    split <;> rfl

theorem step_expire_sessions_state (bn : Nat) (s : GrandpaState) :
    (step_expire_sessions bn s).state = s.state := rfl

theorem step_expire_sessions_authorities (bn : Nat) (s : GrandpaState) :
    (step_expire_sessions bn s).authorities = s.authorities := rfl

theorem step_expire_sessions_pending_change (bn : Nat) (s : GrandpaState) :
    (step_expire_sessions bn s).pending_change = s.pending_change := rfl

theorem step_promote_state (bn ph : Nat) (s : GrandpaState) :
    ((step_promote bn ph s).1).state = s.state := by
  unfold step_promote
  split <;> rfl

theorem step_promote_authorities (bn ph : Nat) (s : GrandpaState) :
    ((step_promote bn ph s).1).authorities = s.authorities := by
  unfold step_promote
  split <;> rfl

theorem step_promote_pending_change (bn ph : Nat) (s : GrandpaState) :
    ((step_promote bn ph s).1).pending_change = s.pending_change := by
  unfold step_promote
  split <;> rfl

theorem step_promote_logs_no_change (bn ph : Nat) (s : GrandpaState) :
    ((step_promote bn ph s).2).filter is_change_log = [] := by
  unfold step_promote
  split <;> rfl

theorem step_lifecycle_authorities (bn : Nat) (s : GrandpaState) :
    ((step_lifecycle bn s).1).authorities = s.authorities := by
  unfold step_lifecycle
  split
  · dsimp only
    split <;> rfl
  · dsimp only
    split <;> rfl
  · rfl

theorem step_lifecycle_pending_change (bn : Nat) (s : GrandpaState) :
    ((step_lifecycle bn s).1).pending_change = s.pending_change := by
  unfold step_lifecycle
  split
  · dsimp only
    split <;> rfl
  · dsimp only
    split <;> rfl
  · rfl

theorem step_lifecycle_logs_no_change (bn : Nat) (s : GrandpaState) :
    ((step_lifecycle bn s).2).filter is_change_log = [] := by
  unfold step_lifecycle
  split
  · dsimp only
    split <;> (split <;> rfl)
  · dsimp only
    split <;> (split <;> rfl)
  · rfl

theorem on_finalize_fst (bn ph : Nat) (s : GrandpaState) :
    (on_finalize bn ph s).1 =
      (step_lifecycle bn
        ((step_promote bn ph (step_expire_sessions bn ((step_pending_change bn s).1))).1)).1 := rfl

theorem on_finalize_snd (bn ph : Nat) (s : GrandpaState) :
    (on_finalize bn ph s).2 =
      (step_pending_change bn s).2 ++
        (step_promote bn ph (step_expire_sessions bn ((step_pending_change bn s).1))).2 ++
        (step_lifecycle bn
          ((step_promote bn ph (step_expire_sessions bn ((step_pending_change bn s).1))).1)).2 := rfl

theorem on_finalize_authorities (bn ph : Nat) (s : GrandpaState) :
    (on_finalize bn ph s).1.authorities = ((step_pending_change bn s).1).authorities := by
  rw [on_finalize_fst, step_lifecycle_authorities, step_promote_authorities,
    step_expire_sessions_authorities]

theorem on_finalize_pending_change (bn ph : Nat) (s : GrandpaState) :
    (on_finalize bn ph s).1.pending_change = ((step_pending_change bn s).1).pending_change := by
  rw [on_finalize_fst, step_lifecycle_pending_change, step_promote_pending_change,
    step_expire_sessions_pending_change]

theorem is_change_log_announce (pc : StoredPendingChange) :
    is_change_log (announce_log pc) = true := by
  unfold announce_log
  cases pc.forced <;> rfl

theorem step_lifecycle_state_of (bn : Nat) (s : GrandpaState) :
    ((step_lifecycle bn s).1).state =
      match s.state with
      | .PendingPause sa d => if bn = sa + d then .Paused else .PendingPause sa d
      | .PendingResume sa d => if bn = sa + d then .Live else .PendingResume sa d
      | st => st := by
  unfold step_lifecycle
  split
  · dsimp only
    split <;> simp_all
  · dsimp only
    split <;> simp_all
  · rename_i st h1 h2
    cases st <;> simp_all

/-- C1: the source has no branch for `round_s < round_b`: such a challenge is
silently accepted (the transaction succeeds) with the state untouched, where
the spec requires rejection with an error. -/
theorem c1_lower_round_silently_accepted (s : GrandpaState) :
    report_rejecting_set (fun _ _ => none) c1_challenge s = .ok s := rfl

/-- C2: expiring the session of `c2_state` at height 150 removes it but
records nothing in HistoricalChallengeSessions (which the source never
writes), and resubmitting the identical challenge is accepted and re-opens a
session with the same hash 7 at the next finalization. -/
theorem c2_expired_session_unrecorded_and_replayable :
    (on_finalize 150 1 c2_state).1.challenge_sessions = [] ∧
    (on_finalize 150 1 c2_state).1.historical_challenge_sessions = [] ∧
    report_rejecting_set (fun _ _ => none) c2_challenge (on_finalize 150 1 c2_state).1 =
      .ok c2_requeued ∧
    ((on_finalize 151 1 c2_requeued).1.challenge_sessions.map Prod.fst) = [7] :=
  ⟨rfl, rfl, rfl, rfl⟩

/-- C3 counterexample: a rebuttal referencing the non-existent session hash
99 is not rejected — it succeeds and is queued, refuting "that session must
exist ... otherwise fail". -/
theorem c3_missing_referenced_session_accepted :
    c3_challenge.previous_challenge = some 99 ∧
    lookup_session init_state.challenge_sessions 99 = none ∧
    report_rejecting_set (fun _ _ => none) c3_challenge init_state =
      .ok { init_state with pending_challenges := [{ challenge := c3_challenge }] } :=
  ⟨rfl, rfl, rfl⟩

/-- C3 amended: for a rebuttal (`round_s > round_b`) with passing inclusion
proofs that references a previous challenge: if the referenced session
exists, its stored round must be strictly below `round_s` or the transaction
fails; a missing referenced session is not an error; on success the
referenced session (if any) is removed and the challenge queued as pending. -/
theorem c3_rebuttal_referenced_session_check
    (cp : Nat → Nat → Option Nat) (ch : Challenge) (s : GrandpaState)
    (ps l : List Nat) (hsh : Nat)
    (hp : ch.targets_proof = some ps)
    (hl : check_targets_loop cp ch.targets ps 0 = .ok l)
    (hr : ch.rejecting_set.round > ch.finalized_block_proof.round)
    (hprev : ch.previous_challenge = some hsh) :
    report_rejecting_set cp ch s =
      match lookup_session s.challenge_sessions hsh with
      | some cs =>
        if cs.rejecting_set_round ≥ ch.rejecting_set.round then
          .error "Answer to challenge must have lower round"
        else
          .ok (queue_pending ch (remove_session s hsh))
      | none => .ok (queue_pending ch (remove_session s hsh)) := by
  unfold report_rejecting_set
  rw [hp]
  dsimp only
  rw [hl]
  dsimp only
  rw [if_neg (Nat.ne_of_gt hr)]
  dsimp only
  rw [if_pos hr]
  unfold rebuttal_branch
  rw [hprev]

/-- C3 witness: concrete rebuttal of round 5 against a stored session of
round 2 under hash 4: accepted, session removed, challenge queued. -/
theorem c3_rebuttal_referenced_session_check_witness :
    report_rejecting_set (fun _ _ => none) c3w_challenge c3w_state =
      .ok (queue_pending c3w_challenge (remove_session c3w_state 4)) :=
  (c3_rebuttal_referenced_session_check (fun _ _ => none) c3w_challenge c3w_state
    [] [] 4 rfl rfl (by decide) rfl).trans rfl

/-- C4 counterexample: an equivocation whose two votes have identical content
(not actually conflicting) with a present and passing inclusion proof is
accepted, not rejected. -/
theorem c4_nonconflicting_votes_accepted :
    Equivocation.is_valid (fun _ _ => true) c4_equivocation = false ∧
    report_equivocation (fun i _ => some i) (fun _ _ => true) c4_equivocation init_state =
      .ok init_state :=
  ⟨rfl, rfl⟩

/-- C4 amended: `report_equivocation` fails with a specific error exactly on
a missing inclusion proof or a failing key-ownership check; once both proof
checks pass it succeeds regardless of whether the equivocation is valid (the
validity check only guards the stubbed slash and is never an error). -/
theorem c4_equivocation_validity_not_enforced
    (cp : Nat → Nat → Option Nat) (sig_ok : Nat → EquivocationVote → Bool)
    (e : Equivocation) (s : GrandpaState) :
    report_equivocation cp sig_ok e s =
      (match e.identity_proof with
      | none => .error "Equivocation does not have inclusion proof"
      | some proof =>
        match cp e.identity proof with
        | none => .error "Bad session key proof"
        | some _ => .ok s) := by
  unfold report_equivocation
  cases e.identity_proof with
  | none => rfl
  | some p =>
    dsimp only
    cases cp e.identity p with
    | none => rfl
    | some w =>
      dsimp only
      split <;> rfl

/-- C5: a forced change is rejected while the NextForced throttle lies
strictly beyond the current height (with the already-pending error taking
precedence when a change is pending), and every successful forced change
moves the throttle to `current height + in_blocks * 2`. -/
theorem c5_forced_change_throttle (na : List (Nat × Nat)) (in_blocks median h nf : Nat)
    (s s2 : GrandpaState) :
    (s.next_forced = some nf → nf > h →
      schedule_change na in_blocks (some median) h s =
        .error (if s.pending_change = none then
            "Cannot signal forced change so soon after last."
          else
            "Attempt to signal GRANDPA change with one already pending.")) ∧
    (schedule_change na in_blocks (some median) h s = .ok s2 →
      s2.next_forced = some (h + in_blocks * 2)) := by
  constructor
  · intro h1 h2
    unfold schedule_change
    by_cases hpc : s.pending_change = none
    · rw [if_pos hpc, if_pos hpc]
      dsimp only
      rw [h1]
      simp [h2]
    · rw [if_neg hpc, if_neg hpc]
  · intro hok
    unfold schedule_change at hok
    by_cases hpc : s.pending_change = none
    · rw [if_pos hpc] at hok
      dsimp only at hok
      split at hok
      · cases hok
      · cases hok
        rfl
    · rw [if_neg hpc] at hok
      cases hok

/-- C5 witness: at height 5 with the throttle at 10 a forced change fails;
a successful forced change at height 19 with delay 4 lands the throttle at
19 + 4 * 2 = 27. -/
theorem c5_forced_change_throttle_witness :
    schedule_change [] 4 (some 8) 5 c5_throttled_state =
      .error "Cannot signal forced change so soon after last." ∧
    c5_after_state.next_forced = some (19 + 4 * 2) := by
  constructor
  · exact ((c5_forced_change_throttle [] 4 8 5 10 c5_throttled_state init_state).1
      rfl (by decide)).trans rfl
  · exact (c5_forced_change_throttle [] 4 8 19 0 init_state c5_after_state).2 rfl

/-- C6 counterexample: with no PendingChange but a future throttle, a forced
schedule_change fails and creates nothing, refuting "every schedule_change
call made while none exists creates exactly one PendingChange". -/
theorem c6_throttled_forced_change_creates_none :
    c6_throttled_state.pending_change = none ∧
    schedule_change [] 1 (some 0) 5 c6_throttled_state =
      .error "Cannot signal forced change so soon after last." :=
  ⟨rfl, rfl⟩

/-- C6 amended: while a PendingChange exists every schedule_change fails with
the already-pending error; every successful call starts from a state with no
pending change and creates exactly the one new PendingChange; and a call with
no pending change succeeds provided it is not a forced change ahead of the
throttle. -/
theorem c6_single_pending_change (na : List (Nat × Nat)) (ib h : Nat)
    (forced : Option Nat) (s s2 : GrandpaState) :
    (s.pending_change ≠ none →
      schedule_change na ib forced h s =
        .error "Attempt to signal GRANDPA change with one already pending.") ∧
    (schedule_change na ib forced h s = .ok s2 →
      s.pending_change = none ∧
      s2.pending_change = some
        { scheduled_at := h, delay := ib, next_authorities := na, forced := forced }) ∧
    (s.pending_change = none →
      (∀ m, forced = some m → ∀ nf, s.next_forced = some nf → nf ≤ h) →
      ∃ s3, schedule_change na ib forced h s = .ok s3) := by
  refine ⟨?_, ?_, ?_⟩
  · intro hne
    unfold schedule_change
    rw [if_neg hne]
  · intro hok
    unfold schedule_change at hok
    by_cases hpc : s.pending_change = none
    · rw [if_pos hpc] at hok
      dsimp only at hok
      cases forced with
      | none =>
        dsimp only at hok
        cases hok
        exact ⟨hpc, rfl⟩
      | some m =>
        dsimp only at hok
        split at hok
        · cases hok
        · cases hok
          exact ⟨hpc, rfl⟩
    · rw [if_neg hpc] at hok
      cases hok
  · intro hpc hth
    unfold schedule_change
    rw [if_pos hpc]
    dsimp only
    cases forced with
    | none => exact ⟨_, rfl⟩
    | some m =>
      cases hnf : s.next_forced with
      | none =>
        dsimp only
        exact ⟨_, rfl⟩
      | some nf =>
        have hle : nf ≤ h := hth m rfl nf hnf
        dsimp only
        rw [if_neg (by simp [Nat.not_lt.mpr hle])]
        exact ⟨_, rfl⟩

/-- C6 witness: with a change already pending a second request fails with the
already-pending error; with none pending an instant change succeeds. -/
theorem c6_single_pending_change_witness :
    schedule_change [] 0 none 5 c6_pending_state =
      .error "Attempt to signal GRANDPA change with one already pending." ∧
    (∃ s3, schedule_change [] 0 none 7 init_state = .ok s3) := by
  constructor
  · exact (c6_single_pending_change [] 0 5 none c6_pending_state init_state).1 (by decide)
  · exact (c6_single_pending_change [] 0 7 none init_state init_state).2.2 rfl
      (fun m hm => nomatch hm)

theorem on_finalize_state_eq (bn ph : Nat) (s : GrandpaState) :
    (on_finalize bn ph s).1.state =
      match s.state with
      | .PendingPause sa d => if bn = sa + d then .Paused else .PendingPause sa d
      | .PendingResume sa d => if bn = sa + d then .Live else .PendingResume sa d
      | st => st := by
  rw [on_finalize_fst, step_lifecycle_state_of, step_promote_state, step_expire_sessions_state,
    step_pending_change_state]

/-- C7: the lifecycle follows the cyclic order Live → PendingPause → Paused →
PendingResume → Live: schedule_pause succeeds exactly from Live and
schedule_resume exactly from Paused; a pending pause/resume is committed by
on_finalize exactly at `scheduled_at + delay` and is untouched at every other
height; and every lifecycle transition of these operations is a cyclic step. -/
theorem c7_lifecycle_cycle (ib h bn ph sa d : Nat) (s : GrandpaState) :
    (s.state = .Live →
      schedule_pause ib h s = .ok { s with state := .PendingPause h ib }) ∧
    (s.state ≠ .Live →
      schedule_pause ib h s =
        .error "Attempt to signal GRANDPA pause when the authority set is not live") ∧
    (s.state = .Paused →
      schedule_resume ib h s = .ok { s with state := .PendingResume h ib }) ∧
    (s.state ≠ .Paused →
      schedule_resume ib h s =
        .error "Attempt to signal GRANDPA resume when the authority set is not paused") ∧
    (s.state = .PendingPause sa d → bn = sa + d →
      (on_finalize bn ph s).1.state = .Paused) ∧
    (s.state = .PendingPause sa d → bn ≠ sa + d →
      (on_finalize bn ph s).1.state = .PendingPause sa d) ∧
    (s.state = .PendingResume sa d → bn = sa + d →
      (on_finalize bn ph s).1.state = .Live) ∧
    (s.state = .PendingResume sa d → bn ≠ sa + d →
      (on_finalize bn ph s).1.state = .PendingResume sa d) ∧
    cyclic_step s.state (on_finalize bn ph s).1.state ∧
    (∀ s4, schedule_pause ib h s = .ok s4 → cyclic_step s.state s4.state) ∧
    (∀ s4, schedule_resume ib h s = .ok s4 → cyclic_step s.state s4.state) := by
  refine ⟨?_, ?_, ?_, ?_, ?_, ?_, ?_, ?_, ?_, ?_, ?_⟩
  · intro h1
    unfold schedule_pause
    rw [h1]
  · intro h1
    unfold schedule_pause
    cases hst : s.state with
    | Live => exact absurd hst h1
    | PendingPause sa2 d2 => rfl
    | Paused => rfl
    | PendingResume sa2 d2 => rfl
  · intro h1
    unfold schedule_resume
    rw [h1]
  · intro h1
    unfold schedule_resume
    cases hst : s.state with
    | Live => rfl
    | PendingPause sa2 d2 => rfl
    | Paused => exact absurd hst h1
    | PendingResume sa2 d2 => rfl
  · intro h1 h2
    rw [on_finalize_state_eq, h1]
    dsimp only
    rw [if_pos h2]
  · intro h1 h2
    rw [on_finalize_state_eq, h1]
    dsimp only
    rw [if_neg h2]
  · intro h1 h2
    rw [on_finalize_state_eq, h1]
    dsimp only
    rw [if_pos h2]
  · intro h1 h2
    rw [on_finalize_state_eq, h1]
    dsimp only
    rw [if_neg h2]
  · rw [on_finalize_state_eq]
    cases hst : s.state with
    | Live => exact Or.inl rfl
    | Paused => exact Or.inl rfl
    | PendingPause sa2 d2 =>
      dsimp only
      by_cases hb : bn = sa2 + d2
      · rw [if_pos hb]
        exact Or.inr (Or.inr (Or.inl ⟨sa2, d2, rfl, rfl⟩))
      · rw [if_neg hb]
        exact Or.inl rfl
    | PendingResume sa2 d2 =>
      dsimp only
      by_cases hb : bn = sa2 + d2
      · rw [if_pos hb]
        exact Or.inr (Or.inr (Or.inr (Or.inr ⟨sa2, d2, rfl, rfl⟩)))
      · rw [if_neg hb]
        exact Or.inl rfl
  · intro s4 hok
    unfold schedule_pause at hok
    cases hst : s.state with
    | Live =>
      rw [hst] at hok
      cases hok
      exact Or.inr (Or.inl ⟨rfl, h, ib, rfl⟩)
    | PendingPause sa2 d2 => rw [hst] at hok; cases hok
    | Paused => rw [hst] at hok; cases hok
    | PendingResume sa2 d2 => rw [hst] at hok; cases hok
  · intro s4 hok
    unfold schedule_resume at hok
    cases hst : s.state with
    | Live => rw [hst] at hok; cases hok
    | PendingPause sa2 d2 => rw [hst] at hok; cases hok
    | Paused =>
      rw [hst] at hok
      cases hok
      exact Or.inr (Or.inr (Or.inr (Or.inl ⟨rfl, h, ib, rfl⟩)))
    | PendingResume sa2 d2 => rw [hst] at hok; cases hok

/-- C7 witness: from Live, pausing at height 5 with delay 3 installs
PendingPause 5 3, and on_finalize at height 8 = 5 + 3 commits Paused. -/
theorem c7_lifecycle_cycle_witness :
    schedule_pause 3 5 init_state = .ok { init_state with state := .PendingPause 5 3 } ∧
    (on_finalize 8 0 c7_pending_state).1.state = .Paused := by
  constructor
  · exact (c7_lifecycle_cycle 3 5 8 0 5 3 init_state).1 rfl
  · exact (c7_lifecycle_cycle 3 5 8 0 5 3 c7_pending_state).2.2.2.2.1 rfl rfl

/-- C8: with passing inclusion proofs and `round_s = round_b`, when the
verifier re-derives the finalized-block proof to a ghost different from the
claimed finalized block the transaction fails with the invalid-proof error;
and in the whole equal-round branch a successful call leaves the state
untouched — no ChallengeSession and no PendingChallenge is created. -/
theorem c8_equal_round_ghost_mismatch_rejected
    (cp : Nat → Nat → Option Nat) (ch : Challenge) (s : GrandpaState)
    (ps l : List Nat) (g : Nat × Nat) :
    (ch.targets_proof = some ps →
      check_targets_loop cp ch.targets ps 0 = .ok l →
      ch.rejecting_set.round = ch.finalized_block_proof.round →
      validate_commit ch.finalized_block ch.finalized_block_proof.votes
        s.authorities ch.finalized_block_proof.headers = .ok (some g) →
      g ≠ ch.finalized_block →
      report_rejecting_set cp ch s = .error "Invalid proof of finalized block") ∧
    (ch.rejecting_set.round = ch.finalized_block_proof.round →
      ∀ s4, report_rejecting_set cp ch s = .ok s4 → s4 = s) := by
  constructor
  · intro hp hl heq hv hg
    unfold report_rejecting_set
    rw [hp]
    dsimp only
    rw [hl]
    dsimp only
    rw [if_pos heq]
    unfold equal_round_checks check_supermajority
    rw [hv]
    dsimp only
    rw [if_neg hg]
  · intro heq s4 hok
    unfold report_rejecting_set at hok
    cases hps : ch.targets_proof with
    | none => rw [hps] at hok; cases hok
    | some ps2 =>
      rw [hps] at hok
      dsimp only at hok
      cases hloop : check_targets_loop cp ch.targets ps2 0 with
      | error e => rw [hloop] at hok; cases hok
      | ok l2 =>
        rw [hloop] at hok
        dsimp only at hok
        rw [if_pos heq] at hok
        cases hec : equal_round_checks ch s.authorities with
        | error e => rw [hec] at hok; cases hok
        | ok u =>
          rw [hec] at hok
          dsimp only at hok
          rw [if_neg (by rw [heq]; exact lt_irrefl _)] at hok
          cases hok
          rfl

/-- C8 witness: the concrete equal-round challenge `c8_challenge`, whose
finalized-block proof's votes all supermajority-support block (2, 2) while
the claimed finalized block is (1, 1), is rejected with the invalid-proof
error. -/
theorem c8_equal_round_ghost_mismatch_rejected_witness :
    report_rejecting_set (fun _ _ => none) c8_challenge c8_state =
      .error "Invalid proof of finalized block" :=
  (c8_equal_round_ghost_mismatch_rejected (fun _ _ => none) c8_challenge c8_state
    [] [] (2, 2)).1 rfl rfl rfl rfl (by decide)

/-- C9: while a change is pending, the per-block advance deposits exactly one
announcement log — ForcedChange with the median when forced, ScheduledChange
otherwise — at the block equal to `scheduled_at` and none at any other
height; at `scheduled_at + delay` it replaces the authorities with
`next_authorities` and clears the PendingChange, and at every other height it
leaves both untouched (with delay 0 the announcement and the enactment land
in the same block). -/
theorem c9_pending_change_announce_and_enact (bn ph : Nat) (s : GrandpaState)
    (pc : StoredPendingChange) (hpc : s.pending_change = some pc) :
    ((on_finalize bn ph s).2.filter is_change_log =
      if bn = pc.scheduled_at then [announce_log pc] else []) ∧
    (bn = pc.scheduled_at + pc.delay →
      (on_finalize bn ph s).1.authorities = pc.next_authorities ∧
      (on_finalize bn ph s).1.pending_change = none) ∧
    (bn ≠ pc.scheduled_at + pc.delay →
      (on_finalize bn ph s).1.authorities = s.authorities ∧
      (on_finalize bn ph s).1.pending_change = some pc) := by
  refine ⟨?_, ?_, ?_⟩
  · rw [on_finalize_snd, List.filter_append, List.filter_append,
      step_promote_logs_no_change, step_lifecycle_logs_no_change,
      step_pending_change_some bn s pc hpc]
    dsimp only
    by_cases hb : bn = pc.scheduled_at
    · rw [if_pos hb]
      simp [is_change_log_announce]
    · rw [if_neg hb]
      rfl
  · intro hb
    rw [on_finalize_authorities, on_finalize_pending_change,
      step_pending_change_some bn s pc hpc]
    dsimp only
    rw [if_pos hb]
    exact ⟨rfl, rfl⟩
  · intro hb
    rw [on_finalize_authorities, on_finalize_pending_change,
      step_pending_change_some bn s pc hpc]
    dsimp only
    rw [if_neg hb]
    exact ⟨rfl, hpc⟩

/-- C9 witness: the end-to-end scenario — four unit-weight authorities, an
instant change to three of them scheduled at height 5 with delay 0 — yields
the single ScheduledChange log at height 5 and the authority set replaced
and the pending change cleared in the same block. -/
theorem c9_pending_change_announce_and_enact_witness :
    (on_finalize 5 0 c9_state).2.filter is_change_log =
      [ConsensusLog.ScheduledChange 0 [(1, 1), (2, 1), (3, 1)]] ∧
    (on_finalize 5 0 c9_state).1.authorities = [(1, 1), (2, 1), (3, 1)] ∧
    (on_finalize 5 0 c9_state).1.pending_change = none := by
  have h := c9_pending_change_announce_and_enact 5 0 c9_state
    { scheduled_at := 5, delay := 0
      next_authorities := [(1, 1), (2, 1), (3, 1)], forced := none } rfl
  exact ⟨h.1.trans rfl, (h.2.1 rfl).1, (h.2.1 rfl).2⟩

/-- C10: on a changed session with differing authorities while both a stall
marker and a pending change are present, on_new_session completes without
propagating the inner schedule_change failure: the stall marker is consumed,
no other field changes, and the stalled forced-change request is lost (the
old PendingChange survives unchanged). -/
theorem c10_stalled_request_lost_when_change_pending
    (validators : List (Nat × Nat)) (h fw med : Nat) (s : GrandpaState)
    (pc : StoredPendingChange)
    (hst : s.stalled = some (fw, med))
    (hpc : s.pending_change = some pc)
    (hne : validators.map (fun v => (v.2, 1)) ≠ s.authorities) :
    on_new_session true validators h s = { s with stalled := none } ∧
    (on_new_session true validators h s).pending_change = some pc := by
  have key : on_new_session true validators h s = { s with stalled := none } := by
    unfold on_new_session
    dsimp only
    rw [if_pos hne, hst]
    dsimp only
    unfold schedule_change
    rw [if_neg (show ¬(({ s with stalled := none } : GrandpaState).pending_change = none) by
      dsimp only
      rw [hpc]
      exact fun hcon => Option.noConfusion hcon)]
    rfl
  exact ⟨key, by rw [key]; exact hpc⟩

/-- C10 witness: the concrete stalled-and-pending state `c10_state` with new
validator identity 2 differing from the current authority 1: the call returns
the same state with only the stall marker cleared. -/
theorem c10_stalled_request_lost_when_change_pending_witness :
    on_new_session true [(0, 2)] 7 c10_state = { c10_state with stalled := none } :=
  (c10_stalled_request_lost_when_change_pending [(0, 2)] 7 3 9 c10_state
    { scheduled_at := 0, delay := 0, next_authorities := [], forced := none }
    rfl rfl (by decide)).1
